import Mathlib

/-!
Shallow embedding of `bot.py` (Flask + python-telegram-bot webhook service
with a pre-readiness update buffer), together with theorems settling the
frozen claims about its specification.

The module-level mutable state of `bot.py` (`_buffer`, `_ready_evt`,
`_stop_evt`, `_app_tg`/`_loop_tg`) is modelled as an explicit state record;
updates handed to the PTB event loop via `asyncio.run_coroutine_threadsafe`
are recorded in a `submitted` list, and every `log.*` call is recorded as a
`LogEvent` so that the observable output of the program is part of the model.
-/

namespace Bot

/-- A parsed JSON value, as returned by Flask's `request.get_json`.
`get_json(force=True, silent=False)` yields any JSON value (object, array,
string, number, boolean or null), raising only on unparseable bodies. -/
inductive JVal where
  | jnull : JVal
  | jbool (b : Bool) : JVal
  | jnum (n : Int) : JVal
  | jstr (s : String) : JVal
  | jarr (xs : List JVal) : JVal
  | jobj (kvs : List (String × JVal)) : JVal

/-- One emitted log record, mirroring each `log.*` call in `bot.py`. -/
inductive LogEvent where
  /-- Record of `log.exception("Bad update JSON, skip: %s", e)` in `_submit_update_json`. -/
  | badUpdateJson : LogEvent
  /-- Record of `log.info("Buffer drain (%s): flushed %d update(s)", tag, drained)`. -/
  | drainInfo (tag : String) (n : Nat) : LogEvent
  /-- Record of `log.warning("Buffered update while PTB not ready (queue=%d)", len(_buffer))`. -/
  | bufferedWarning (qlen : Nat) : LogEvent
  /-- Record of `log.exception("Webhook: bad JSON")`. -/
  | webhookBadJson : LogEvent
deriving DecidableEq, Repr

/-- The module-level state of `bot.py`:
`ready` is `_ready_evt`, `stop` is `_stop_evt`, `runtimeUp` stands for
`_app_tg and _loop_tg` being non-`None`, `buffer` is the deque `_buffer`,
`submitted` records updates enqueued onto the PTB loop, `logs` the log
records emitted so far. -/
structure SysState where
  ready : Bool
  stop : Bool
  runtimeUp : Bool
  buffer : List JVal
  submitted : List JVal
  logs : List LogEvent

/-- The fresh module state at import time: both events unset, empty deque. -/
def initState : SysState :=
  { ready := false, stop := false, runtimeUp := false,
    buffer := [], submitted := [], logs := [] }

/-- Model of `_submit_update_json(data)`: returns unchanged state unless
`_app_tg and _loop_tg and _ready_evt.is_set()`; then `Update.de_json` either
succeeds (modelled by the oracle `deJson`) and the update is enqueued on the
PTB loop, or raises, which is caught and logged, dropping the update. -/
def submitUpdateJson (deJson : JVal → Bool) (d : JVal) (s : SysState) : SysState :=
  if s.runtimeUp && s.ready then
    if deJson d then { s with submitted := s.submitted ++ [d] }
    else { s with logs := s.logs ++ [.badUpdateJson] }
  else s

/-- Body of the `while` loop of `_drain_buffer`, applied to a buffer snapshot:
returns (number of entries popped, updates enqueued in order, logs emitted).
Within one sequential call `_ready_evt` stays set and `_app_tg`/`_loop_tg`
do not change, so the per-entry effect of `_submit_update_json` depends only
on `runtimeUp` and `deJson`. -/
def drainLoop (deJson : JVal → Bool) (runtimeUp : Bool) :
    List JVal → Nat × List JVal × List LogEvent
  | [] => (0, [], [])
  | d :: rest =>
    let eff : List JVal × List LogEvent :=
      if runtimeUp then
        if deJson d then ([d], []) else ([], [.badUpdateJson])
      else ([], [])
    let r := drainLoop deJson runtimeUp rest
    (r.1 + 1, eff.1 ++ r.2.1, eff.2 ++ r.2.2)

/-- Model of `_drain_buffer(tag)`: while `_ready_evt.is_set() and _buffer`, pop the
left end and submit it; afterwards log the flush count if nonzero.
Returns the drained count alongside the new state. -/
def drainBuffer (deJson : JVal → Bool) (tag : String) (s : SysState) :
    Nat × SysState :=
  if s.ready then
    let r := drainLoop deJson s.runtimeUp s.buffer
    (r.1,
      { s with
        buffer := []
        submitted := s.submitted ++ r.2.1
        logs := s.logs ++ r.2.2 ++ (if r.1 ≠ 0 then [.drainInfo tag r.1] else []) })
  else (0, s)

/-- HTTP status outcomes of the `webhook` Flask view. `serverError500`
models an uncaught exception escaping the handler (Flask answers 500). -/
inductive Resp where
  | ok200 : Resp
  | forbidden403 : Resp
  | badJson400 : Resp
  | serverError500 : Resp
deriving DecidableEq, Repr

/-- The `webhook` view of `bot.py`, sequential semantics.
`sec` is `WEBHOOK_SECRET`, `bufMax` is `_BUFFER_MAX`, `hdr` the value of the
`X-Telegram-Bot-Api-Secret-Token` header, `body = none` models
`request.get_json(force=True, silent=False)` raising on an unparseable body,
`body = some v` a successful parse to the JSON value `v`. -/
def webhook (sec : String) (bufMax : Nat) (deJson : JVal → Bool)
    (hdr : String) (body : Option JVal) (s : SysState) : Resp × SysState :=
  if hdr ≠ sec then (.forbidden403, s)
  else
    match body with
    | none => (.badJson400, { s with logs := s.logs ++ [.webhookBadJson] })
    | some data =>
      if s.ready then
        let s1 := submitUpdateJson deJson data s
        let s2 := (drainBuffer deJson "webhook" s1).2
        (.ok200, s2)
      else
        if s.buffer.length ≥ bufMax then
          match s.buffer with
          | [] => (.serverError500, s)  -- `popleft` from an empty deque raises
          | _ :: rest =>
            let buf := rest ++ [data]
            (.ok200, { s with buffer := buf,
                              logs := s.logs ++ [.bufferedWarning buf.length] })
        else
          let buf := s.buffer ++ [data]
          (.ok200, { s with buffer := buf,
                            logs := s.logs ++ [.bufferedWarning buf.length] })

/-- Sequentially process a list of inbound webhook requests. -/
def runRequests (sec : String) (bufMax : Nat) (deJson : JVal → Bool)
    (reqs : List (String × Option JVal)) (s : SysState) : SysState :=
  match reqs with
  | [] => s
  | (hdr, body) :: rest =>
      runRequests sec bufMax deJson rest (webhook sec bufMax deJson hdr body s).2

/-! ## Webhook registrar (`_set_webhook_once`) -/

/-- Outcome of one run of `_set_webhook_once`. -/
inductive RegOutcome where
  | success : RegOutcome
  /-- Outcome when `except Exception: log.exception("Failed to set webhook via HTTP")` ran. -/
  | loggedFailure : RegOutcome
  /-- Outcome when `log.warning("BASE_URL is empty — webhook will not be set automatically")` ran. -/
  | skippedNoBaseUrl : RegOutcome
deriving DecidableEq, Repr

/-- Observable trace of one run of `_set_webhook_once`: how many
`deleteWebhook`/`setWebhook` HTTP posts were made, every sleep performed
(in seconds), the outcome, and whether the process was terminated. -/
structure RegTrace where
  deleteCalls : Nat
  setCalls : Nat
  sleeps : List Nat
  outcome : RegOutcome
  processTerminated : Bool
deriving DecidableEq, Repr

/-- Model of `_set_webhook_once()`: if `BASE_URL` is empty, log a warning and return.
Otherwise post `deleteWebhook`, post `setWebhook`, and `raise_for_status()`,
which raises exactly when the response status is a 4xx/5xx (in particular on
a 429 rate-limit response); any exception is caught and logged. The function
contains no sleep and no loop: each call makes at most one `setWebhook`
attempt and never terminates the process. `setStatus` is the HTTP status of
the `setWebhook` response. -/
def setWebhookOnce (baseUrl : String) (setStatus : Nat) : RegTrace :=
  if baseUrl = "" then
    { deleteCalls := 0, setCalls := 0, sleeps := [],
      outcome := .skippedNoBaseUrl, processTerminated := false }
  else if setStatus ≥ 400 then
    { deleteCalls := 1, setCalls := 1, sleeps := [],
      outcome := .loggedFailure, processTerminated := false }
  else
    { deleteCalls := 1, setCalls := 1, sleeps := [],
      outcome := .success, processTerminated := false }

/-! ## Module-level operations on the shared state

Every piece of code in `bot.py` that mutates the module state, as one
operation type: inbound HTTP requests, the steps of the PTB background
thread, and the shutdown hook. -/

/-- One state-mutating operation of the program. -/
inductive Op where
  /-- An inbound `POST /webhook/<path>` handled by `webhook`. -/
  | webhookReq (hdr : String) (body : Option JVal) : Op
  /-- Request `GET /` (`health`): returns "OK", touches nothing. -/
  | healthReq : Op
  /-- Step of `_ptb_thread` up to `run_until_complete(_async_bootstrap())`:
  creates the loop and the application, so `_app_tg and _loop_tg` becomes
  truthy. -/
  | ptbBootstrap : Op
  /-- Step `_ready_evt.set()` (line after the bootstrap). -/
  | ptbSetReady : Op
  /-- Step `_drain_buffer("startup")`. -/
  | ptbDrainStartup : Op
  /-- Handler `_graceful_shutdown`: `_stop_evt.set()` then `_drain_buffer("shutdown")`
  (the remaining waiting does not mutate the modelled state). -/
  | sigterm : Op

/-- Effect of one operation on the module state. -/
def applyOp (sec : String) (bufMax : Nat) (deJson : JVal → Bool)
    (op : Op) (s : SysState) : SysState :=
  match op with
  | .webhookReq hdr body => (webhook sec bufMax deJson hdr body s).2
  | .healthReq => s
  | .ptbBootstrap => { s with runtimeUp := true }
  | .ptbSetReady => { s with ready := true }
  | .ptbDrainStartup => (drainBuffer deJson "startup" s).2
  | .sigterm => (drainBuffer deJson "shutdown" { s with stop := true }).2

/-- The straight-line body of `_ptb_thread` after the handlers are added,
as the sequence of module-state operations it performs (lines 156-160):
bootstrap, `_ready_evt.set()`, `_drain_buffer("startup")`. The subsequent
keep-alive loop performs no further state operation. -/
def ptbThreadOps : List Op := [.ptbBootstrap, .ptbSetReady, .ptbDrainStartup]

/-- Does this operation set the readiness event? -/
def setsReady : Op → Bool
  | .ptbSetReady => true
  | _ => false

/-! ## Configuration defaulting (lines 51-52)

`WEBHOOK_PATH = os.getenv("WEBHOOK_PATH", "mySecret_2025").strip()` and
`WEBHOOK_SECRET = os.getenv("WEBHOOK_SECRET", WEBHOOK_PATH).strip()`.
Python's `str.strip()` with no argument removes leading and trailing
whitespace; it is translated here as list operations on the characters. -/

/-- Remove leading whitespace (the front half of Python's `str.strip()`). -/
def dropLeadWs (l : List Char) : List Char := l.dropWhile Char.isWhitespace

/-- Remove trailing whitespace (the back half of Python's `str.strip()`). -/
def dropTrailWs (l : List Char) : List Char :=
  (l.reverse.dropWhile Char.isWhitespace).reverse

/-- Python's `s.strip()`: drop leading and trailing whitespace. -/
def pyStrip (s : String) : String := ⟨dropTrailWs (dropLeadWs s.data)⟩

/-- Line 51: `WEBHOOK_PATH = os.getenv("WEBHOOK_PATH", "mySecret_2025").strip()`.
`envPath` is the raw environment lookup (`none` when the variable is absent). -/
def webhookPathConfig (envPath : Option String) : String :=
  pyStrip (envPath.getD "mySecret_2025")

/-- Line 52: `WEBHOOK_SECRET = os.getenv("WEBHOOK_SECRET", WEBHOOK_PATH).strip()`.
The default is the already-computed `WEBHOOK_PATH` value. -/
def webhookSecretConfig (envSecret : Option String) (path : String) : String :=
  pyStrip (envSecret.getD path)

/-- The secret the `webhook` view compares the inbound header against
(line 201) for a given environment. -/
def inboundCheckSecret (envSecret envPath : Option String) : String :=
  webhookSecretConfig envSecret (webhookPathConfig envPath)

/-- The `secret_token` field sent to `setWebhook` (lines 151 and 239)
for a given environment. -/
def registrationSecret (envSecret envPath : Option String) : String :=
  webhookSecretConfig envSecret (webhookPathConfig envPath)

/-! ## Spec-side drain, for comparison with `_drain_buffer` -/

/-- Following the spec's words for `drainReady()`: given a TTL, the drain
time `now`, and the buffer with each entry's arrival timestamp, remove and
return all entries whose age is at most the TTL, in arrival order,
discarding (and counting as loss) any entry that exceeded the TTL. -/
def drainReadySpec (ttl now : Nat) (buf : List (Nat × JVal)) :
    List JVal × Nat :=
  ((buf.filter (fun e => decide (now - e.1 ≤ ttl))).map (·.2),
   (buf.filter (fun e => decide (¬ (now - e.1 ≤ ttl)))).length)

/-! ## Interleaving model of `markReady` racing with concurrent pushes

Requests run on concurrent WSGI threads while `_ptb_thread` flips
`_ready_evt` and drains. Under the Python GIL each single deque operation
(`append`, `popleft`, `len`) and each `Event` operation is atomic, but the
handler's read of `_ready_evt` and its subsequent buffer mutation are
separate atomic actions. The machine below interleaves, at that
granularity, one `markReady` process (lines 158-160: set the event, then
`_drain_buffer("startup")`) with `k` webhook-request processes that have
already passed authentication and JSON parsing (lines 210-222); envelope
payloads are identified with their request index `0, …, k-1`.

The handler's capacity check `len(_buffer) >= _BUFFER_MAX` (line 218) and
its `popleft()` (line 220) are separate atomic actions — a drain running in
between can empty the deque, and the `popleft` then raises `IndexError`,
killing the handler before line 221 ever appends its envelope. A loop
iteration of `_drain_buffer` (condition test, `popleft`, submit) is taken
as one atomic action: this coarsening does not affect where envelopes end
up, because a popped envelope is immediately submitted from the popping
thread's local variable, and a drain iteration racing an already-emptied
deque pops nothing and stops either way (cleanly here, via the propagated
`IndexError` in the code). -/

/-- Program counter of one webhook-request process in the race model. -/
inductive PushPc where
  /-- About to read `_ready_evt.is_set()` (line 211). -/
  | start : PushPc
  /-- Read the gate and saw the value `b`. -/
  | sawReady (b : Bool) : PushPc
  /-- Not-ready path: the capacity check at line 218 saw
  `len(_buffer) >= _BUFFER_MAX`; about to run `_buffer.popleft()`
  (line 220). -/
  | evicting : PushPc
  /-- Not-ready path, past the capacity check (and the eviction, when one
  happened), about to `_buffer.append(data)` (line 221). -/
  | appending : PushPc
  /-- Ready path after `_submit_update_json`, inside `_drain_buffer("webhook")`. -/
  | draining : PushPc
  /-- Handler finished. -/
  | done : PushPc
  /-- State after the `popleft` at line 220 raised `IndexError` because a
  concurrent drain emptied the deque between the capacity check and the
  `popleft`; the handler died before appending its envelope. -/
  | failed : PushPc
deriving DecidableEq, Repr

/-- Program counter of the `markReady` process (PTB startup path). -/
inductive MPc where
  /-- About to run `_ready_evt.set()` (line 158). -/
  | start : MPc
  /-- Inside `_drain_buffer("startup")`. -/
  | draining : MPc
  /-- Finished. -/
  | done : MPc
deriving DecidableEq, Repr

/-- Shared state of the race model. `evicted` records envelopes dropped by
the capacity eviction (`popleft` at line 220); `submitted` the envelopes
handed to PTB. -/
structure CState where
  gate : Bool
  buffer : List Nat
  submitted : List Nat
  evicted : List Nat
  pcs : List PushPc
  mpc : MPc
deriving DecidableEq, Repr

/-- A scheduling event: advance the `markReady` process or the `i`-th
request process by one atomic action. -/
inductive Ev where
  | mready : Ev
  | push (i : Nat) : Ev
deriving DecidableEq, Repr

/-- One atomic action of the chosen process. -/
def raceStep (bufMax : Nat) (s : CState) (e : Ev) : CState :=
  match e with
  | .mready =>
    match s.mpc with
    | .start => { s with gate := true, mpc := .draining }
    | .draining =>
      if s.gate then
        match s.buffer with
        | [] => { s with mpc := .done }
        | d :: rest => { s with buffer := rest, submitted := s.submitted ++ [d] }
      else { s with mpc := .done }
    | .done => s
  | .push i =>
    match s.pcs[i]? with
    | none => s
    | some pc =>
      match pc with
      | .start => { s with pcs := s.pcs.set i (.sawReady s.gate) }
      | .sawReady true =>
          { s with submitted := s.submitted ++ [i], pcs := s.pcs.set i .draining }
      | .sawReady false =>
          if s.buffer.length ≥ bufMax then { s with pcs := s.pcs.set i .evicting }
          else { s with pcs := s.pcs.set i .appending }
      | .evicting =>
          match s.buffer with
          | [] => { s with pcs := s.pcs.set i .failed }
          | d :: rest =>
              { s with buffer := rest, evicted := s.evicted ++ [d],
                       pcs := s.pcs.set i .appending }
      | .appending =>
          { s with buffer := s.buffer ++ [i], pcs := s.pcs.set i .done }
      | .draining =>
        if s.gate then
          match s.buffer with
          | [] => { s with pcs := s.pcs.set i .done }
          | d :: rest => { s with buffer := rest, submitted := s.submitted ++ [d] }
        else { s with pcs := s.pcs.set i .done }
      | .done => s
      | .failed => s

/-- Initial race state: gate unset, empty buffer, all processes at start. -/
def raceInit (k : Nat) : CState :=
  { gate := false, buffer := [], submitted := [], evicted := [],
    pcs := List.replicate k .start, mpc := .start }

/-- Run a schedule (arbitrary interleaving) from the initial state. -/
def raceRun (k bufMax : Nat) (sched : List Ev) : CState :=
  sched.foldl (raceStep bufMax) (raceInit k)

/-- Has this request process taken its buffer-or-dispatch effect yet?
`draining`/`done` are reached exactly at the atomic action that appends the
envelope to the buffer or submits it directly. -/
def actedB : PushPc → Bool
  | .draining => true
  | .done => true
  | _ => false

/-- Value `1` if the process has taken effect, else `0`. -/
def actedN (pc : PushPc) : Nat := if actedB pc then 1 else 0

/-- The race-model accounting invariant: every envelope occurs in the
buffer, the submitted list and the eviction record with total multiplicity
exactly `1` once its request process has taken effect, and `0` before. -/
def raceInv (s : CState) : Prop :=
  ∀ i : Nat,
    s.buffer.count i + s.submitted.count i + s.evicted.count i
      = actedN (s.pcs.getD i .start)

/-- A schedule (capacity 1, two requests) exhibiting a lost push:
request 0 checks the gate (unset), passes the capacity check (buffer
empty) and appends; request 1 checks the gate (unset) and sees the buffer
full, entering the eviction path; `markReady` then sets the gate and the
startup drain pops request 0's envelope; request 1's `popleft` now hits
the emptied deque and raises `IndexError` — its envelope is never
buffered, never dispatched, never evicted. -/
def c3LossSched : List Ev :=
  [.push 0, .push 0, .push 0, .push 1, .push 1, .mready, .mready, .push 1,
   .mready]

/-- A state in which PTB has started and readiness is set, with the given
buffer contents: reached after `ptbBootstrap` and `ptbSetReady`. -/
def readyState (buf : List JVal) : SysState :=
  { ready := true, stop := false, runtimeUp := true,
    buffer := buf, submitted := [], logs := [] }

/-- A pre-readiness state with the given buffer contents. -/
def notReadyState (buf : List JVal) : SysState :=
  { ready := false, stop := false, runtimeUp := false,
    buffer := buf, submitted := [], logs := [] }

/-! ## Helper lemmas -/

theorem getD_set_same {α : Type _} {l : List α} {i : Nat} (h : i < l.length)
    (v d : α) : ((l.set i v)[i]?).getD d = v := by
  simp [List.getElem?_set_self h]

theorem getD_set_other {α : Type _} {l : List α} {i j : Nat} (h : i ≠ j)
    (v d : α) : ((l.set i v)[j]?).getD d = (l[j]?).getD d := by
  simp [List.getElem?_set_ne h]

theorem getD_of_getElem?_some {α : Type _} {l : List α} {i : Nat} {a : α}
    (h : l[i]? = some a) (d : α) : l.getD i d = a := by
  simp [List.getD_eq_getElem?_getD, h]

theorem dropWhile_length_le {α : Type _} (p : α → Bool) (l : List α) :
    (l.dropWhile p).length ≤ l.length := by
  induction l with
  | nil => simp
  | cons a t ih =>
    by_cases h : p a
    · simp only [List.dropWhile_cons, h, if_true, List.length_cons]
      omega
    · simp [List.dropWhile_cons, h]

theorem dropWhile_twice {α : Type _} (p : α → Bool) (l : List α) :
    (l.dropWhile p).dropWhile p = l.dropWhile p := by
  induction l with
  | nil => rfl
  | cons a t ih => by_cases h : p a <;> simp [List.dropWhile_cons, h, ih]

theorem dropWhile_rev_fix {α : Type _} (p : α → Bool) (x : List α)
    (hx : x.dropWhile p = x) :
    ((x.reverse.dropWhile p).reverse).dropWhile p
      = (x.reverse.dropWhile p).reverse := by
  have hx2 : x = (x.reverse.dropWhile p).reverse
      ++ (x.reverse.takeWhile p).reverse := by
    conv_lhs => rw [← List.reverse_reverse x,
      ← List.takeWhile_append_dropWhile (p := p) (l := x.reverse)]
    rw [List.reverse_append]
  cases hrev : (x.reverse.dropWhile p).reverse with
  | nil => simp
  | cons c cs =>
    have hxc : x = c :: (cs ++ (x.reverse.takeWhile p).reverse) := by
      conv_lhs => rw [hx2, hrev]
      simp
    have hpc : p c = false := by
      by_contra hc
      have hc' : p c = true := by
        cases hpcb : p c
        · exact absurd hpcb hc
        · rfl
      have hlen := congrArg List.length hx
      rw [hxc] at hlen
      rw [show (c :: (cs ++ (x.reverse.takeWhile p).reverse)).dropWhile p
            = (cs ++ (x.reverse.takeWhile p).reverse).dropWhile p by
          simp [List.dropWhile_cons, hc']] at hlen
      have hle := dropWhile_length_le p (cs ++ (x.reverse.takeWhile p).reverse)
      simp only [List.length_cons] at hlen
      omega
    simp [List.dropWhile_cons, hpc]

theorem pyStrip_idem (s : String) : pyStrip (pyStrip s) = pyStrip s := by
  have key : ∀ l : List Char,
      dropTrailWs (dropLeadWs (dropTrailWs (dropLeadWs l)))
        = dropTrailWs (dropLeadWs l) := by
    intro l
    have h1 : dropLeadWs (dropTrailWs (dropLeadWs l))
        = dropTrailWs (dropLeadWs l) :=
      dropWhile_rev_fix Char.isWhitespace (dropLeadWs l)
        (dropWhile_twice Char.isWhitespace l)
    have h2 : dropTrailWs (dropTrailWs (dropLeadWs l))
        = dropTrailWs (dropLeadWs l) := by
      unfold dropTrailWs
      rw [List.reverse_reverse, dropWhile_twice]
    rw [h1, h2]
  exact congrArg String.mk (key s.data)

theorem drainLoop_all_ok (deJson : JVal → Bool) (buf : List JVal)
    (h : ∀ d ∈ buf, deJson d = true) :
    drainLoop deJson true buf = (buf.length, buf, ([] : List LogEvent)) := by
  induction buf with
  | nil => rfl
  | cons d rest ih =>
    have hd : deJson d = true := h d (List.mem_cons_self d rest)
    have hrest : ∀ x ∈ rest, deJson x = true :=
      fun x hx => h x (List.mem_cons_of_mem d hx)
    simp [drainLoop, hd, ih hrest]

theorem submitUpdateJson_ready (deJson : JVal → Bool) (d : JVal) (s : SysState) :
    (submitUpdateJson deJson d s).ready = s.ready := by
  unfold submitUpdateJson
  split
  · split <;> rfl
  · rfl

theorem submitUpdateJson_buffer (deJson : JVal → Bool) (d : JVal) (s : SysState) :
    (submitUpdateJson deJson d s).buffer = s.buffer := by
  unfold submitUpdateJson
  split
  · split <;> rfl
  · rfl

theorem drainBuffer_ready (deJson : JVal → Bool) (tag : String) (s : SysState) :
    ((drainBuffer deJson tag s).2).ready = s.ready := by
  unfold drainBuffer
  split <;> rfl

theorem drainBuffer_buffer (deJson : JVal → Bool) (tag : String) (s : SysState) :
    ((drainBuffer deJson tag s).2).buffer
      = (if s.ready = true then [] else s.buffer) := by
  unfold drainBuffer
  by_cases h : s.ready = true <;> simp [h]

theorem webhook_forbidden (sec : String) (bufMax : Nat) (deJson : JVal → Bool)
    (hdr : String) (body : Option JVal) (s : SysState) (h : hdr ≠ sec) :
    webhook sec bufMax deJson hdr body s = (.forbidden403, s) := by
  unfold webhook
  simp [h]

theorem webhook_badjson (sec : String) (bufMax : Nat) (deJson : JVal → Bool)
    (s : SysState) :
    webhook sec bufMax deJson sec none s
      = (.badJson400, { s with logs := s.logs ++ [.webhookBadJson] }) := by
  unfold webhook
  simp

theorem webhook_parsed_ok (sec : String) (bufMax : Nat) (deJson : JVal → Bool)
    (v : JVal) (s : SysState) (hN : 1 ≤ bufMax) :
    (webhook sec bufMax deJson sec (some v) s).1 = .ok200 := by
  unfold webhook
  rw [if_neg (fun h : sec ≠ sec => h rfl)]
  dsimp only
  by_cases hr : s.ready = true
  · rw [if_pos hr]
  · rw [if_neg hr]
    by_cases hlen : s.buffer.length ≥ bufMax
    · rw [if_pos hlen]
      cases hbuf : s.buffer with
      | nil => rw [hbuf] at hlen; simp at hlen; omega
      | cons a rest => rfl
    · rw [if_neg hlen]

theorem submitUpdateJson_stop_comm (deJson : JVal → Bool) (d : JVal)
    (s : SysState) (b : Bool) :
    submitUpdateJson deJson d { s with stop := b }
      = { submitUpdateJson deJson d s with stop := b } := by
  unfold submitUpdateJson
  by_cases h1 : s.runtimeUp && s.ready
  · by_cases h2 : deJson d <;> simp [h1, h2]
  · simp [h1]

theorem drainBuffer_stop_comm (deJson : JVal → Bool) (tag : String)
    (s : SysState) (b : Bool) :
    drainBuffer deJson tag { s with stop := b }
      = ((drainBuffer deJson tag s).1,
         { (drainBuffer deJson tag s).2 with stop := b }) := by
  unfold drainBuffer
  by_cases h : s.ready = true <;> simp [h]

theorem webhook_buffer_length_le (sec : String) (bufMax : Nat)
    (deJson : JVal → Bool) (hdr : String) (body : Option JVal) (s : SysState)
    (hs : s.buffer.length ≤ bufMax) :
    ((webhook sec bufMax deJson hdr body s).2).buffer.length ≤ bufMax := by
  by_cases hh : hdr ≠ sec
  · rw [webhook_forbidden sec bufMax deJson hdr body s hh]
    exact hs
  · push_neg at hh
    subst hh
    cases body with
    | none =>
      rw [webhook_badjson]
      exact hs
    | some v =>
      unfold webhook
      rw [if_neg (fun h : hdr ≠ hdr => h rfl)]
      dsimp only
      by_cases hr : s.ready = true
      · rw [if_pos hr]
        dsimp only
        rw [drainBuffer_buffer, submitUpdateJson_ready]
        simp [hr]
      · rw [if_neg hr]
        by_cases hlen : s.buffer.length ≥ bufMax
        · rw [if_pos hlen]
          cases hbuf : s.buffer with
          | nil => exact hs
          | cons a rest =>
            rw [hbuf] at hs
            simp at hs ⊢
            omega
        · rw [if_neg hlen]
          simp at hlen ⊢
          omega

theorem runRequests_buffer_length_le (sec : String) (bufMax : Nat)
    (deJson : JVal → Bool) (reqs : List (String × Option JVal)) :
    ∀ s : SysState, s.buffer.length ≤ bufMax →
      (runRequests sec bufMax deJson reqs s).buffer.length ≤ bufMax := by
  induction reqs with
  | nil => intro s hs; exact hs
  | cons r rest ih =>
    intro s hs
    obtain ⟨hdr, body⟩ := r
    exact ih _ (webhook_buffer_length_le sec bufMax deJson hdr body s hs)

theorem webhook_ready (sec : String) (bufMax : Nat) (deJson : JVal → Bool)
    (hdr : String) (body : Option JVal) (s : SysState) :
    ((webhook sec bufMax deJson hdr body s).2).ready = s.ready := by
  by_cases hh : hdr ≠ sec
  · rw [webhook_forbidden sec bufMax deJson hdr body s hh]
  · push_neg at hh
    subst hh
    cases body with
    | none => rw [webhook_badjson]
    | some v =>
      unfold webhook
      rw [if_neg (fun h : hdr ≠ hdr => h rfl)]
      dsimp only
      by_cases hr : s.ready = true
      · rw [if_pos hr]
        dsimp only
        rw [drainBuffer_ready, submitUpdateJson_ready]
      · rw [if_neg hr]
        by_cases hlen : s.buffer.length ≥ bufMax
        · rw [if_pos hlen]
          cases s.buffer with
          | nil => rfl
          | cons a rest => rfl
        · rw [if_neg hlen]

/-! ## Claim theorems -/

/-- C1 counterexample: `_drain_buffer` applies no TTL filter. With TTL 60,
an entry that arrived at time 0 and is drained at time 100 (age 100 > 60)
must, per the claim, be discarded and counted as loss — the spec-side
drain returns `([], 1)` — yet the code's drain submits it to PTB and
reports one flushed update. -/
theorem C1_cex :
    drainReadySpec 60 100 [(0, JVal.jnum 7)] = ([], 1)
    ∧ (drainBuffer (fun _ => true) "startup" (readyState [.jnum 7])).1 = 1
    ∧ (drainBuffer (fun _ => true) "startup" (readyState [.jnum 7])).2.submitted
      = [.jnum 7] :=
  ⟨rfl, rfl, rfl⟩

/-- C1 (amended): a single call to `_drain_buffer` on a ready state removes
and submits ALL buffered envelopes regardless of age — no TTL exists — in
original arrival (FIFO) order, and on an empty buffer it returns 0 and is a
no-op. -/
theorem C1_drain_flushes_all (deJson : JVal → Bool) (tag : String)
    (s : SysState) (h1 : s.ready = true) (h2 : s.runtimeUp = true)
    (h3 : ∀ d ∈ s.buffer, deJson d = true) :
    (drainBuffer deJson tag s).1 = s.buffer.length
    ∧ (drainBuffer deJson tag s).2.buffer = []
    ∧ (drainBuffer deJson tag s).2.submitted = s.submitted ++ s.buffer
    ∧ (s.buffer = [] → drainBuffer deJson tag s = (0, s)) := by
  obtain ⟨r, st, ru, buf, sub, lg⟩ := s
  simp only at h1 h2 h3
  subst h1
  subst h2
  have hl := drainLoop_all_ok deJson buf h3
  refine ⟨?_, ?_, ?_, ?_⟩
  · simp [drainBuffer, hl]
  · simp [drainBuffer, hl]
  · simp [drainBuffer, hl]
  · intro h0
    simp only at h0
    subst h0
    simp [drainBuffer, drainLoop]

/-- C1 witness: the amended drain theorem applied to a ready state holding
two buffered envelopes. -/
theorem C1_witness :
    (drainBuffer (fun _ => true) "startup" (readyState [.jnum 1, .jnum 2])).1
      = (readyState [.jnum 1, .jnum 2]).buffer.length
    ∧ (drainBuffer (fun _ => true) "startup"
        (readyState [.jnum 1, .jnum 2])).2.buffer = []
    ∧ (drainBuffer (fun _ => true) "startup"
        (readyState [.jnum 1, .jnum 2])).2.submitted
      = (readyState [.jnum 1, .jnum 2]).submitted
          ++ (readyState [.jnum 1, .jnum 2]).buffer
    ∧ ((readyState [.jnum 1, .jnum 2]).buffer = []
        → drainBuffer (fun _ => true) "startup" (readyState [.jnum 1, .jnum 2])
            = (0, readyState [.jnum 1, .jnum 2])) :=
  C1_drain_flushes_all (fun _ => true) "startup" (readyState [.jnum 1, .jnum 2])
    rfl rfl (fun _ _ => rfl)

/-- C2 counterexample: no loss counter exists. A push into a full buffer of
capacity 2 (evicting the oldest entry `jnum 1`) and a push into a non-full
buffer emit exactly the same single observable log record
(`bufferedWarning 2`), nothing is dispatched, and the evicted envelope is
simply gone — so no observable counter is incremented by the eviction. -/
theorem C2_cex :
    (webhook "s" 2 (fun _ => true) "s" (some (.jnum 3))
        (notReadyState [.jnum 1, .jnum 2])).2.logs = [.bufferedWarning 2]
    ∧ (webhook "s" 2 (fun _ => true) "s" (some (.jnum 3))
        (notReadyState [.jnum 2])).2.logs = [.bufferedWarning 2]
    ∧ (webhook "s" 2 (fun _ => true) "s" (some (.jnum 3))
        (notReadyState [.jnum 1, .jnum 2])).2.buffer = [.jnum 2, .jnum 3]
    ∧ (webhook "s" 2 (fun _ => true) "s" (some (.jnum 3))
        (notReadyState [.jnum 1, .jnum 2])).2.submitted = []
    ∧ JVal.jnum 1 ∉ [JVal.jnum 2, JVal.jnum 3] := by
  refine ⟨rfl, rfl, rfl, rfl, ?_⟩
  simp

/-- C2 (amended): the buffer size never exceeds the configured capacity
`_BUFFER_MAX` across any sequence of requests, and a push into a buffer at
capacity evicts exactly the oldest (first-arrived) entry; but the eviction
is silent — the code maintains no loss counter (see `C2_cex`). -/
theorem C2_capacity_bound (sec : String) (bufMax : Nat) (deJson : JVal → Bool)
    (reqs : List (String × Option JVal)) (s : SysState)
    (hN : 1 ≤ bufMax) (hs : s.buffer.length ≤ bufMax) :
    (runRequests sec bufMax deJson reqs s).buffer.length ≤ bufMax
    ∧ ∀ (d : JVal) (t : SysState), t.ready = false → t.buffer.length = bufMax →
        (webhook sec bufMax deJson sec (some d) t).2.buffer
          = t.buffer.tail ++ [d]
        ∧ (webhook sec bufMax deJson sec (some d) t).1 = .ok200 := by
  constructor
  · exact runRequests_buffer_length_le sec bufMax deJson reqs s hs
  · intro d t ht hlen
    unfold webhook
    rw [if_neg (fun h : sec ≠ sec => h rfl)]
    dsimp only
    rw [if_neg (by rw [ht]; exact Bool.false_ne_true)]
    rw [if_pos (by omega : t.buffer.length ≥ bufMax)]
    cases hbuf : t.buffer with
    | nil =>
      rw [hbuf] at hlen
      simp at hlen
      omega
    | cons a rest => exact ⟨rfl, rfl⟩

/-- C2 witness: capacity bound after one request from the initial state,
and eviction of the oldest entry when pushing into a full buffer of
capacity 1. -/
theorem C2_witness :
    (runRequests "s" 1 (fun _ => true) [("s", some JVal.jnull)]
        initState).buffer.length ≤ 1
    ∧ (webhook "s" 1 (fun _ => true) "s" (some (.jnum 9))
        (notReadyState [.jnum 5])).2.buffer
      = (notReadyState [.jnum 5]).buffer.tail ++ [.jnum 9] := by
  have h := C2_capacity_bound "s" 1 (fun _ => true) [("s", some JVal.jnull)]
    initState (by decide) (by decide)
  exact ⟨h.1, (h.2 (.jnum 9) (notReadyState [.jnum 5]) rfl rfl).1⟩

/-- C4: every authenticated request with a parseable body is answered 200
— whether the update is dispatched to the ready runtime, buffered, or lost
to eviction or a `de_json` failure — and a non-200 status arises only from
a wrong secret (403) or an unparseable body (400). Requires the configured
capacity to be at least 1 (with `BUFFER_MAX = 0` a pre-readiness request
would raise `IndexError` from `popleft` on the empty deque). -/
theorem C4_ack_policy (sec : String) (bufMax : Nat) (deJson : JVal → Bool)
    (hdr : String) (body : Option JVal) (s : SysState) (hN : 1 ≤ bufMax) :
    (hdr = sec → ∀ v : JVal, body = some v →
      (webhook sec bufMax deJson hdr body s).1 = .ok200)
    ∧ ((webhook sec bufMax deJson hdr body s).1 ≠ .ok200 →
        (hdr ≠ sec ∧ (webhook sec bufMax deJson hdr body s).1 = .forbidden403)
        ∨ (hdr = sec ∧ body = none
           ∧ (webhook sec bufMax deJson hdr body s).1 = .badJson400)) := by
  constructor
  · intro he v hb
    subst he
    subst hb
    exact webhook_parsed_ok hdr bufMax deJson v s hN
  · intro hne
    by_cases hh : hdr = sec
    · subst hh
      cases body with
      | none =>
        right
        refine ⟨rfl, rfl, ?_⟩
        rw [webhook_badjson]
      | some v => exact absurd (webhook_parsed_ok hdr bufMax deJson v s hN) hne
    · left
      exact ⟨hh, by rw [webhook_forbidden sec bufMax deJson hdr body s hh]⟩

/-- C4 witness: an authenticated, parseable request from the initial
(not-yet-ready) state is answered 200. -/
theorem C4_witness :
    (webhook "s" 1 (fun _ => true) "s" (some .jnull) initState).1 = .ok200 :=
  (C4_ack_policy "s" 1 (fun _ => true) "s" (some .jnull) initState
    (by decide)).1 rfl .jnull rfl

/-- C5: a request whose secret-token header differs from the configured
secret is answered 403 with the state — buffer, submissions, logs —
entirely unchanged. -/
theorem C5_secret_mismatch_rejected (sec : String) (bufMax : Nat)
    (deJson : JVal → Bool) (hdr : String) (body : Option JVal) (s : SysState)
    (h : hdr ≠ sec) :
    webhook sec bufMax deJson hdr body s = (.forbidden403, s) :=
  webhook_forbidden sec bufMax deJson hdr body s h

/-- C5 witness: a wrong-secret request against the default secret. -/
theorem C5_witness :
    webhook "mySecret_2025" 1000 (fun _ => true) "attacker" (some .jnull)
        initState
      = (.forbidden403, initState) :=
  C5_secret_mismatch_rejected "mySecret_2025" 1000 (fun _ => true) "attacker"
    (some .jnull) initState (by decide)

/-- C6 counterexample: a valid-JSON body whose top-level value is an array
(not an object) is NOT rejected with 400: `get_json(force=True)` parses it,
and the handler answers 200 and buffers it (here: pre-readiness state). -/
theorem C6_cex :
    (webhook "mySecret_2025" 1000 (fun _ => true) "mySecret_2025"
        (some (.jarr [])) initState).1 = .ok200
    ∧ (webhook "mySecret_2025" 1000 (fun _ => true) "mySecret_2025"
        (some (.jarr [])) initState).2.buffer = [.jarr []] :=
  ⟨rfl, rfl⟩

/-- C6 (amended): only an unparseable body is classified as a client error
(400), with buffer and dispatch untouched; every parseable JSON value —
object or not — is accepted with 200. -/
theorem C6_nonobject_accepted (sec : String) (bufMax : Nat)
    (deJson : JVal → Bool) (s : SysState) (hN : 1 ≤ bufMax) :
    ((webhook sec bufMax deJson sec none s).1 = .badJson400
      ∧ (webhook sec bufMax deJson sec none s).2.buffer = s.buffer
      ∧ (webhook sec bufMax deJson sec none s).2.submitted = s.submitted)
    ∧ ∀ v : JVal, (webhook sec bufMax deJson sec (some v) s).1 = .ok200 := by
  refine ⟨?_, fun v => webhook_parsed_ok sec bufMax deJson v s hN⟩
  rw [webhook_badjson]
  exact ⟨rfl, rfl, rfl⟩

/-- C6 witness: the amended decoder theorem at a concrete state — a bad
body gets 400, an array body gets 200. -/
theorem C6_witness :
    (webhook "s" 2 (fun _ => true) "s" none initState).1 = .badJson400
    ∧ (webhook "s" 2 (fun _ => true) "s" (some (.jarr [])) initState).1
      = .ok200 := by
  have h := C6_nonobject_accepted "s" 2 (fun _ => true) initState (by decide)
  exact ⟨h.1.1, h.2 (.jarr [])⟩

/-- C7 counterexample: on a rate-limit (429) response to `setWebhook`,
`_set_webhook_once` performs no sleep at all and makes exactly one attempt
— there is no backoff and no retry; the failure is only logged. -/
theorem C7_cex :
    (setWebhookOnce "https://example.com" 429).setCalls = 1
    ∧ (setWebhookOnce "https://example.com" 429).sleeps = []
    ∧ (setWebhookOnce "https://example.com" 429).outcome = .loggedFailure
    ∧ (setWebhookOnce "https://example.com" 429).processTerminated = false :=
  ⟨rfl, rfl, rfl, rfl⟩

/-- C7 (amended): webhook registration is attempted at most once per call,
with no backoff sleep ever; any failure — including a rate-limit — is
logged as a non-fatal fault and the process (and HTTP server) keeps
running. -/
theorem C7_no_retry_no_backoff (baseUrl : String) (setStatus : Nat) :
    (setWebhookOnce baseUrl setStatus).setCalls ≤ 1
    ∧ (setWebhookOnce baseUrl setStatus).sleeps = []
    ∧ (setWebhookOnce baseUrl setStatus).processTerminated = false
    ∧ (setWebhookOnce baseUrl setStatus).outcome
      = (if baseUrl = "" then .skippedNoBaseUrl
         else if setStatus ≥ 400 then .loggedFailure else .success) := by
  unfold setWebhookOnce
  by_cases h1 : baseUrl = ""
  · simp [h1]
  · by_cases h2 : setStatus ≥ 400 <;> simp [h1, h2]

/-- C8: readiness is monotone — no operation of the program ever clears
`_ready_evt` (its new value is the old value or-ed with whether the
operation is the single `_ready_evt.set()`), and the PTB thread's
straight-line body contains exactly one set of the readiness event. -/
theorem C8_ready_monotone (sec : String) (bufMax : Nat)
    (deJson : JVal → Bool) :
    (∀ (op : Op) (s : SysState),
        (applyOp sec bufMax deJson op s).ready = (s.ready || setsReady op))
    ∧ ptbThreadOps.countP (fun op => setsReady op) = 1 := by
  refine ⟨?_, rfl⟩
  intro op s
  cases op with
  | webhookReq hdr body =>
    show ((webhook sec bufMax deJson hdr body s).2).ready = (s.ready || false)
    rw [webhook_ready, Bool.or_false]
  | healthReq =>
    show s.ready = (s.ready || false)
    rw [Bool.or_false]
  | ptbBootstrap =>
    show s.ready = (s.ready || false)
    rw [Bool.or_false]
  | ptbSetReady =>
    show (true : Bool) = (s.ready || true)
    rw [Bool.or_true]
  | ptbDrainStartup =>
    show ((drainBuffer deJson "startup" s).2).ready = (s.ready || false)
    rw [drainBuffer_ready, Bool.or_false]
  | sigterm =>
    show ((drainBuffer deJson "shutdown" { s with stop := true }).2).ready
      = (s.ready || false)
    rw [drainBuffer_ready, Bool.or_false]

/-- C9 counterexample: after the termination signal (`_graceful_shutdown`
has run, so `_stop_evt` is set), an authenticated, parseable inbound
request arriving while PTB is not ready is STILL appended to the pending
buffer — the handler never consults `_stop_evt`. -/
theorem C9_cex :
    ((applyOp "mySecret_2025" 1000 (fun _ => true) .sigterm initState)).stop
      = true
    ∧ ((webhook "mySecret_2025" 1000 (fun _ => true) "mySecret_2025"
        (some (.jobj []))
        (applyOp "mySecret_2025" 1000 (fun _ => true) .sigterm
          initState)).2).buffer = [.jobj []] :=
  ⟨rfl, rfl⟩

/-- C9 (amended): the webhook handler does not consult the stop flag at
all — its response and its effect on buffer, submissions and logs are
identical whether or not a termination signal has been received; in
particular pre-readiness requests are still buffered during shutdown. -/
theorem C9_stop_not_consulted (sec : String) (bufMax : Nat)
    (deJson : JVal → Bool) (hdr : String) (body : Option JVal) (s : SysState)
    (b : Bool) :
    webhook sec bufMax deJson hdr body { s with stop := b }
      = ((webhook sec bufMax deJson hdr body s).1,
         { (webhook sec bufMax deJson hdr body s).2 with stop := b }) := by
  obtain ⟨r, st, ru, buf, sub, lg⟩ := s
  by_cases hh : hdr ≠ sec
  · rw [webhook_forbidden _ _ _ _ _ _ hh, webhook_forbidden _ _ _ _ _ _ hh]
  · push_neg at hh
    subst hh
    cases body with
    | none => rw [webhook_badjson, webhook_badjson]
    | some v =>
      unfold webhook
      rw [if_neg (fun h : hdr ≠ hdr => h rfl),
        if_neg (fun h : hdr ≠ hdr => h rfl)]
      dsimp only
      cases r with
      | true =>
        rw [if_pos rfl, if_pos rfl]
        by_cases hru : ru <;> by_cases hdj : deJson v <;>
          simp [submitUpdateJson, drainBuffer, hru, hdj]
      | false =>
        rw [if_neg Bool.false_ne_true, if_neg Bool.false_ne_true]
        by_cases hlen : buf.length ≥ bufMax
        · rw [if_pos hlen, if_pos hlen]
          cases buf with
          | nil => rfl
          | cons a rest => rfl
        · rw [if_neg hlen, if_neg hlen]

/-- C10: with `WEBHOOK_SECRET` absent from the environment, the configured
secret equals the configured `WEBHOOK_PATH` value (for any `WEBHOOK_PATH`
environment value), which itself defaults to "mySecret_2025"; and the
inbound-header check and the `setWebhook` registration use the same secret
string. -/
theorem C10_secret_defaults :
    (∀ envPath : Option String,
        webhookSecretConfig none (webhookPathConfig envPath)
          = webhookPathConfig envPath)
    ∧ webhookPathConfig none = "mySecret_2025"
    ∧ inboundCheckSecret none none = "mySecret_2025"
    ∧ ∀ envSecret envPath : Option String,
        inboundCheckSecret envSecret envPath
          = registrationSecret envSecret envPath := by
  refine ⟨?_, ?_, ?_, fun _ _ => rfl⟩
  · intro envPath
    exact pyStrip_idem (Option.getD envPath "mySecret_2025")
  · rfl
  · rfl

/-! ## Race-model invariant -/

theorem raceInv_init (k : Nat) : raceInv (raceInit k) := by
  intro i
  simp [raceInit, actedN, actedB, List.getD_eq_getElem?_getD,
    List.getElem?_replicate]
  split <;> rfl

theorem raceInv_step (bufMax : Nat) (s : CState) (e : Ev) (h : raceInv s) :
    raceInv (raceStep bufMax s e) := by
  cases e with
  | mready =>
    cases hm : s.mpc with
    | start => intro j; simpa [raceStep, hm] using h j
    | draining =>
      by_cases hg : s.gate = true
      · cases hbuf : s.buffer with
        | nil =>
          intro j
          have hj := h j
          rw [hbuf] at hj
          simpa [raceStep, hm, hg, hbuf] using hj
        | cons d rest =>
          intro j
          have hj := h j
          rw [hbuf] at hj
          by_cases hdj : d = j
          · subst hdj
            simp [raceStep, hm, hg, hbuf, List.count_cons] at hj ⊢
            omega
          · simp [raceStep, hm, hg, hbuf, List.count_cons, beq_iff_eq,
              hdj] at hj ⊢
            omega
      · intro j
        simpa [raceStep, hm, hg] using h j
    | done => intro j; simpa [raceStep, hm] using h j
  | push i =>
    cases hpc : s.pcs[i]? with
    | none => intro j; simpa [raceStep, hpc] using h j
    | some pc =>
      obtain ⟨hilen, -⟩ := List.getElem?_eq_some_iff.mp hpc
      have hgetD : s.pcs.getD i .start = pc := getD_of_getElem?_some hpc .start
      cases pc with
      | start =>
        intro j
        by_cases hji : j = i
        · subst hji
          have hj := h j
          rw [hgetD] at hj
          simp [raceStep, hpc, getD_set_same hilen, actedN, actedB]
            at hj ⊢
          omega
        · have hj := h j
          simp [raceStep, hpc, getD_set_other (Ne.symm hji)] at hj ⊢
          omega
      | sawReady b =>
        cases b with
        | true =>
          intro j
          by_cases hji : j = i
          · subst hji
            have hj := h j
            rw [hgetD] at hj
            simp [raceStep, hpc, getD_set_same hilen, actedN, actedB,
              List.count_singleton_self] at hj ⊢
            omega
          · have hj := h j
            simp [raceStep, hpc, getD_set_other (Ne.symm hji),
              List.count_singleton, beq_iff_eq, Ne.symm hji] at hj ⊢
            omega
        | false =>
          have hred : raceStep bufMax s (.push i)
              = (if s.buffer.length ≥ bufMax then
                  { s with pcs := s.pcs.set i .evicting }
                 else { s with pcs := s.pcs.set i .appending }) := by
            simp [raceStep, hpc]
          rw [hred]
          by_cases hlen : s.buffer.length ≥ bufMax
          · rw [if_pos hlen]
            intro j
            have hj := h j
            by_cases hji : j = i
            · subst hji
              rw [hgetD] at hj
              simp [getD_set_same hilen, actedN, actedB] at hj ⊢
              omega
            · simp [getD_set_other (Ne.symm hji)] at hj ⊢
              omega
          · rw [if_neg hlen]
            intro j
            have hj := h j
            by_cases hji : j = i
            · subst hji
              rw [hgetD] at hj
              simp [getD_set_same hilen, actedN, actedB] at hj ⊢
              omega
            · simp [getD_set_other (Ne.symm hji)] at hj ⊢
              omega
      | evicting =>
        cases hbuf : s.buffer with
        | nil =>
          intro j
          have hj := h j
          rw [hbuf] at hj
          by_cases hji : j = i
          · subst hji
            rw [hgetD] at hj
            simp [raceStep, hpc, hbuf, getD_set_same hilen, actedN,
              actedB] at hj ⊢
            omega
          · simp [raceStep, hpc, hbuf, getD_set_other (Ne.symm hji)]
              at hj ⊢
            omega
        | cons d rest =>
          intro j
          have hj := h j
          rw [hbuf] at hj
          by_cases hji : j = i
          · subst hji
            rw [hgetD] at hj
            by_cases hdj : d = j
            · subst hdj
              simp [raceStep, hpc, hbuf, getD_set_same hilen, actedN,
                actedB, List.count_cons] at hj ⊢
            · simp [raceStep, hpc, hbuf, getD_set_same hilen, actedN,
                actedB, List.count_cons, List.count_singleton, beq_iff_eq,
                hdj] at hj ⊢
              omega
          · by_cases hdj : d = j
            · subst hdj
              simp [raceStep, hpc, hbuf, getD_set_other (Ne.symm hji),
                List.count_cons] at hj ⊢
              omega
            · simp [raceStep, hpc, hbuf, getD_set_other (Ne.symm hji),
                List.count_cons, List.count_singleton, beq_iff_eq, hdj]
                at hj ⊢
              omega
      | appending =>
        intro j
        by_cases hji : j = i
        · subst hji
          have hj := h j
          rw [hgetD] at hj
          simp [raceStep, hpc, getD_set_same hilen, actedN, actedB,
            List.count_singleton_self] at hj ⊢
          omega
        · have hj := h j
          simp [raceStep, hpc, getD_set_other (Ne.symm hji),
            List.count_singleton, beq_iff_eq, Ne.symm hji] at hj ⊢
          omega
      | draining =>
        have hred : raceStep bufMax s (.push i)
            = (if s.gate = true then
                match s.buffer with
                | [] => { s with pcs := s.pcs.set i .done }
                | d :: rest =>
                    { s with buffer := rest, submitted := s.submitted ++ [d] }
               else { s with pcs := s.pcs.set i .done }) := by
          simp [raceStep, hpc]
        rw [hred]
        by_cases hg : s.gate = true
        · rw [if_pos hg]
          cases hbuf : s.buffer with
          | nil =>
            intro j
            have hj := h j
            rw [hbuf] at hj
            by_cases hji : j = i
            · subst hji
              rw [hgetD] at hj
              simp [getD_set_same hilen, actedN, actedB] at hj ⊢
              omega
            · simp [getD_set_other (Ne.symm hji)] at hj ⊢
              omega
          | cons d rest =>
            intro j
            have hj := h j
            rw [hbuf] at hj
            by_cases hdj : d = j
            · subst hdj
              simp [List.count_cons] at hj ⊢
              omega
            · simp [List.count_cons, beq_iff_eq, hdj] at hj ⊢
              omega
        · rw [if_neg hg]
          intro j
          have hj := h j
          by_cases hji : j = i
          · subst hji
            rw [hgetD] at hj
            simp [getD_set_same hilen, actedN, actedB] at hj ⊢
            omega
          · simp [getD_set_other (Ne.symm hji)] at hj ⊢
            omega
      | done => intro j; simpa [raceStep, hpc] using h j
      | failed => intro j; simpa [raceStep, hpc] using h j

theorem raceRun_inv (k bufMax : Nat) (sched : List Ev) :
    raceInv (raceRun k bufMax sched) := by
  suffices hgen : ∀ (l : List Ev) (s : CState),
      raceInv s → raceInv (l.foldl (raceStep bufMax) s) by
    exact hgen sched (raceInit k) (raceInv_init k)
  intro l
  induction l with
  | nil => intro s hs; exact hs
  | cons e rest ih => intro s hs; exact ih _ (raceInv_step bufMax s e hs)

/-- C3 counterexample: a push CAN end up "neither" — with capacity 1 and
two requests, the schedule `c3LossSched` drives request 1 into the
eviction path, the `markReady` startup drain empties the deque between
request 1's capacity check and its `popleft`, and the `popleft` raises
`IndexError`: request 1's handler dies (`failed`) and its envelope occurs
in none of the buffer, the submissions or the eviction record, while
request 0's envelope was drained normally. -/
theorem C3_cex :
    (raceRun 2 1 c3LossSched).pcs.getD 1 .start = .failed
    ∧ (raceRun 2 1 c3LossSched).buffer.count 1
        + (raceRun 2 1 c3LossSched).submitted.count 1
        + (raceRun 2 1 c3LossSched).evicted.count 1 = 0
    ∧ (raceRun 2 1 c3LossSched).submitted = [0]
    ∧ (raceRun 2 1 c3LossSched).buffer = [] :=
  ⟨rfl, rfl, rfl, rfl⟩

/-- C3 (amended): in every interleaving of the one `markReady` transition
(gate set plus startup drain) with any number of concurrent
webhook-request processes, no envelope is ever duplicated — an envelope is
never submitted twice and never both still buffered and submitted — and a
request that took its atomic effect occurs exactly once in the union of
the pending buffer, the PTB submissions and the capacity-eviction record,
never before. "Never neither" fails, however: a request that dies with
`IndexError` (a drain emptied the deque between its capacity check and its
`popleft`; state `failed`, `actedN = 0`) has its envelope in none of the
three — see `C3_cex`. -/
theorem C3_race_no_duplication (k bufMax : Nat) (sched : List Ev) (i : Nat) :
    ((raceRun k bufMax sched).buffer.count i
        + (raceRun k bufMax sched).submitted.count i
        + (raceRun k bufMax sched).evicted.count i
      = actedN ((raceRun k bufMax sched).pcs.getD i .start))
    ∧ (raceRun k bufMax sched).submitted.count i ≤ 1
    ∧ ¬(i ∈ (raceRun k bufMax sched).buffer
        ∧ i ∈ (raceRun k bufMax sched).submitted) := by
  have h := raceRun_inv k bufMax sched i
  have hle : actedN ((raceRun k bufMax sched).pcs.getD i .start) ≤ 1 := by
    unfold actedN
    split <;> omega
  refine ⟨h, by omega, ?_⟩
  rintro ⟨hb, hs⟩
  have hb' : 0 < (raceRun k bufMax sched).buffer.count i :=
    List.count_pos_iff.mpr hb
  have hs' : 0 < (raceRun k bufMax sched).submitted.count i :=
    List.count_pos_iff.mpr hs
  omega

end Bot
